import Mathlib

/-!
Shallow embedding of the live-update dashboard controller from
src/static/js/real-time-dashboard.js (class RealTimeDashboard).

Timers: JavaScript setInterval/clearInterval are modelled by a runtime
list of scheduled timer entries (id and period) plus a fresh-id counter;
the controller stores its handle in updateTimer.  Side effects (fetches,
renders, toast notifications) are modelled as an event trace.
-/

namespace RealTimeDashboard

/-- A vehicle record as returned by /api/trucks (only the status field is
read by the dashboard). -/
structure Vehicle where
  status : String
deriving DecidableEq, Repr

/-- Weather payload from /api/real_weather. -/
structure Weather where
  condition : String
  temperature : ℚ
  humidity : ℚ
  visibility : ℚ
deriving DecidableEq, Repr

/-- Traffic payload from /api/traffic_status. -/
structure Traffic where
  level : String
  delay_minutes : ℚ
  timestamp : Nat
deriving DecidableEq, Repr

/-- One maintenance alert record. -/
structure MAlert where
  urgency : String
  message : String
deriving DecidableEq, Repr

/-- Maintenance payload from /api/maintenance_alerts; `alerts` is `none`
when the field is absent (JS falsy), `some list` otherwise (an empty
array is truthy in JS, hence `some []`). -/
structure MaintenanceData where
  alerts : Option (List MAlert)
deriving DecidableEq, Repr

/-- One employee tracking record from /api/employee_tracking. -/
structure TrackRecord where
  employee_id : String
  vehicle_number : String
  trip_status : String
  timestamp : Nat
deriving DecidableEq, Repr

/-- JavaScript Math.round for the nonnegative arguments used here:
round half up, i.e. floor(x + 1/2). -/
def jsRound (q : ℚ) : ℤ := ⌊q + 1 / 2⌋

/-- The four counters rendered by updateVehicleStats. -/
structure VehicleStats where
  total : Nat
  active : Nat
  idle : Nat
  efficiency : ℤ
deriving DecidableEq, Repr

/-- updateVehicleStats (lines 169-181): total is the list length, active
counts status "In Transit", idle counts status "Available", efficiency is
round(active/total*100) guarded by total > 0 (else 0). -/
def updateVehicleStats (data : List Vehicle) : VehicleStats :=
  let totalVehicles := data.length
  let activeVehicles := (data.filter (fun v => v.status = "In Transit")).length
  let idleVehicles := (data.filter (fun v => v.status = "Available")).length
  let efficiency : ℤ :=
    if totalVehicles > 0 then
      jsRound (((activeVehicles : ℚ) / (totalVehicles : ℚ)) * 100)
    else 0
  ⟨totalVehicles, activeVehicles, idleVehicles, efficiency⟩

/-- Observable side effects of the controller: loading indicators, the
five render steps, chart refresh, last-refresh timestamp, toast
notifications (message, severity, duration ms), and an invocation of
fetchRealTimeData ("tick"). -/
inductive Event where
  | showLoading : Event
  | hideLoading : Event
  | renderVehicles (stats : VehicleStats) : Event
  | renderWeather (w : Weather) : Event
  | renderTraffic (t : Traffic) : Event
  | renderMaintenance (critical warning : Nat) : Event
  | renderTracking (records : List TrackRecord) : Event
  | chartsUpdated : Event
  | lastRefreshUpdated : Event
  | notifyEvt (message severity : String) (durationMs : Nat) : Event
  | fetchTick : Event
deriving DecidableEq, Repr

/-- Is this event one of the five data-kind render steps? -/
def Event.isRender : Event → Bool
  | .renderVehicles _ => true
  | .renderWeather _ => true
  | .renderTraffic _ => true
  | .renderMaintenance _ _ => true
  | .renderTracking _ => true
  | _ => false

/-- Is this event a toast notification with severity "error"? -/
def Event.isErrorNotify : Event → Bool
  | .notifyEvt _ severity _ => severity = "error"
  | _ => false

/-- updateMaintenanceAlerts (lines 217-241): when the container exists and
the payload has an alerts field, render the critical/warning counts and
emit one "error" toast (duration 10000) per critical alert; otherwise do
nothing. -/
def updateMaintenanceAlerts (containerPresent : Bool) (data : MaintenanceData) :
    List Event :=
  match containerPresent, data.alerts with
  | true, some alerts =>
      let criticalAlerts := alerts.filter (fun a => a.urgency = "Critical")
      let warningAlerts := alerts.filter (fun a => a.urgency = "Warning")
      Event.renderMaintenance criticalAlerts.length warningAlerts.length ::
        criticalAlerts.map
          (fun a => Event.notifyEvt ("Critical: " ++ a.message) "error" 10000)
  | _, _ => []

/-- A scheduled repeating timer in the runtime: its handle and period. -/
structure TimerEntry where
  id : Nat
  periodMs : Nat
deriving DecidableEq, Repr

/-- Controller state: the fields of the RealTimeDashboard object that the
polling lifecycle reads or writes, plus the runtime timer table
(`scheduled`) and a fresh-handle counter (`nextId`). -/
structure DashState where
  isLiveMode : Bool
  updateInterval : Nat
  updateTimer : Option Nat
  scheduled : List TimerEntry
  nextId : Nat
deriving DecidableEq, Repr

/-- Runtime clearInterval h: removes the timer with handle h. -/
def clearIntervalJS (s : DashState) (h : Nat) : DashState :=
  { s with scheduled := s.scheduled.filter (fun e => e.id ≠ h) }

/-- Runtime setInterval with period p: schedules a fresh repeating timer
and returns its handle. -/
def setIntervalJS (s : DashState) (p : Nat) : DashState × Nat :=
  ({ s with scheduled := s.scheduled ++ [⟨s.nextId, p⟩], nextId := s.nextId + 1 },
   s.nextId)

/-- startLiveUpdates (lines 70-83): clear the existing timer if any,
schedule a repeating timer at updateInterval, then perform one immediate
fetchRealTimeData call. -/
def startLiveUpdates (s : DashState) : DashState × List Event :=
  let s1 :=
    match s.updateTimer with
    | some h => clearIntervalJS s h
    | none => s
  let r := setIntervalJS s1 s1.updateInterval
  ({ r.1 with updateTimer := some r.2 }, [Event.fetchTick])

/-- stopLiveUpdates (lines 85-90): clear the timer if present and null the
handle; no-op otherwise. -/
def stopLiveUpdates (s : DashState) : DashState :=
  match s.updateTimer with
  | some h => { clearIntervalJS s h with updateTimer := none }
  | none => s

/-- restartLiveUpdates (lines 92-97): stop, then start again only when
live mode is on. -/
def restartLiveUpdates (s : DashState) : DashState × List Event :=
  let s1 := stopLiveUpdates s
  if s1.isLiveMode then startLiveUpdates s1 else (s1, [])

/-- toggleLiveMode (lines 50-68): set the flag; when enabling, start live
updates and toast "success"; when disabling, stop and toast "info". -/
def toggleLiveMode (s : DashState) (enabled : Bool) : DashState × List Event :=
  let s1 := { s with isLiveMode := enabled }
  if enabled then
    let r := startLiveUpdates s1
    (r.1, r.2 ++ [Event.notifyEvt "Live mode enabled" "success" 5000])
  else
    (stopLiveUpdates s1, [Event.notifyEvt "Live mode disabled" "info" 5000])

/-- The updateInterval change handler (lines 39-47): store the parsed
seconds times 1000, and restart the timer only when in live mode. -/
def onIntervalChange (s : DashState) (seconds : Nat) : DashState × List Event :=
  let s1 := { s with updateInterval := seconds * 1000 }
  if s1.isLiveMode then restartLiveUpdates s1 else (s1, [])

/-- The repeating timer callback (lines 75-79): fetch only when live mode
is on. -/
def onTimerFire (s : DashState) : List Event :=
  if s.isLiveMode then [Event.fetchTick] else []

/-- The state right after `new RealTimeDashboard()`: the constructor sets
isLiveMode := false, updateInterval := 30000, no timer; init() then calls
startLiveUpdates unconditionally. -/
def constructedState : DashState :=
  (startLiveUpdates
    { isLiveMode := false, updateInterval := 30000, updateTimer := none,
      scheduled := [], nextId := 0 }).1

/-- States reachable from construction by the four lifecycle operations. -/
inductive Reachable : DashState → Prop where
  | construct : Reachable constructedState
  | toggle (s : DashState) (b : Bool) :
      Reachable s → Reachable (toggleLiveMode s b).1
  | start (s : DashState) :
      Reachable s → Reachable (startLiveUpdates s).1
  | stop (s : DashState) :
      Reachable s → Reachable (stopLiveUpdates s)
  | restart (s : DashState) :
      Reachable s → Reachable (restartLiveUpdates s).1

/-- The timer-table half of the LiveModeState invariant: the stored handle
is non-null iff exactly that one repeating timer is scheduled. -/
def timerInv (s : DashState) : Prop :=
  match s.updateTimer with
  | some h => s.scheduled.map TimerEntry.id = [h]
  | none => s.scheduled = []

/-- Promise.all over the five fetches: the tuple on success, the first
rejection otherwise. -/
def promiseAll5 (rv : Except String (List Vehicle)) (rw : Except String Weather)
    (rt : Except String Traffic) (rm : Except String MaintenanceData)
    (rtr : Except String (List TrackRecord)) :
    Except String
      (List Vehicle × Weather × Traffic × MaintenanceData × List TrackRecord) := do
  let v ← rv
  let w ← rw
  let t ← rt
  let m ← rm
  let tr ← rtr
  pure (v, w, t, m, tr)

/-- fetchRealTimeData (lines 99-138): show loading; await all five
fetches; on success run the five render steps (maintenance may emit
toasts), refresh charts, hide loading, stamp the refresh time; on any
rejection emit one "error" toast and hide loading.  The controller state
(in particular the timer) is untouched either way. -/
def fetchRealTimeData (s : DashState) (containerMaint : Bool)
    (rv : Except String (List Vehicle)) (rw : Except String Weather)
    (rt : Except String Traffic) (rm : Except String MaintenanceData)
    (rtr : Except String (List TrackRecord)) : DashState × List Event :=
  match promiseAll5 rv rw rt rm rtr with
  | .ok (v, w, t, m, tr) =>
      (s, Event.showLoading ::
          Event.renderVehicles (updateVehicleStats v) ::
          Event.renderWeather w ::
          Event.renderTraffic t ::
          (updateMaintenanceAlerts containerMaint m ++
            (Event.renderTracking tr ::
             Event.chartsUpdated ::
             Event.hideLoading ::
             [Event.lastRefreshUpdated])))
  | .error _ =>
      (s, [Event.showLoading,
           Event.notifyEvt "Failed to fetch real-time data" "error" 5000,
           Event.hideLoading])

/-- The data of the carbon-trend line chart: parallel label and value
series. -/
structure TrendChartData where
  labels : List String
  data : List ℚ
deriving DecidableEq, Repr

/-- updateCarbonTrendChart (lines 407-423): push the time label and the
new value, then if the label series exceeds 10 points shift (drop the
oldest of) both series. -/
def updateCarbonTrendChart (c : TrendChartData) (timeLabel : String) (value : ℚ) :
    TrendChartData :=
  let labels := c.labels ++ [timeLabel]
  let data := c.data ++ [value]
  if labels.length > 10 then
    { labels := labels.drop 1, data := data.drop 1 }
  else
    { labels := labels, data := data }

/-- easeOutQuart easing from animateCounter (line 459). -/
def easeOutQuart (p : ℚ) : ℚ := 1 - (1 - p) ^ 4

/-- The progress value at frame time t (line 456): min(elapsed/duration, 1). -/
def jsProgress (startTime duration t : ℚ) : ℚ :=
  min ((t - startTime) / duration) 1

/-- The counter value written at frame time t (line 460):
round(start + (target - start) * easeOutQuart(progress)). -/
def animateValue (startValue targetValue : ℤ) (startTime duration t : ℚ) : ℤ :=
  jsRound ((startValue : ℚ) +
    ((targetValue : ℚ) - (startValue : ℚ)) *
      easeOutQuart (jsProgress startTime duration t))

/-- The animateCounter frame loop (lines 454-467) over a given sequence of
frame times: write a value each frame and continue while progress < 1;
the frame reaching progress 1 is the last. -/
def animateRun (startValue targetValue : ℤ) (startTime duration : ℚ) :
    List ℚ → List ℤ
  | [] => []
  | t :: ts =>
      let v := animateValue startValue targetValue startTime duration t
      if jsProgress startTime duration t < 1 then
        v :: animateRun startValue targetValue startTime duration ts
      else
        [v]

/-- Has this fetch result rejected? -/
def rejected {α : Type} : Except String α → Bool
  | .error _ => true
  | .ok _ => false

/-! ## Helper lemmas -/

theorem filter_ne_nil_of_map_id (l : List TimerEntry) (h : Nat)
    (hl : l.map TimerEntry.id = [h]) :
    l.filter (fun e => e.id ≠ h) = [] := by
  cases l with
  | nil => simp at hl
  | cons e tl =>
    cases tl with
    | nil =>
      simp only [List.map_cons, List.map_nil, List.cons.injEq, and_true] at hl
      simp [List.filter, hl]
    | cons f tl2 => simp at hl

theorem id_eq_of_map_id (l : List TimerEntry) (h : Nat)
    (hl : l.map TimerEntry.id = [h]) : ∀ a ∈ l, a.id = h := by
  cases l with
  | nil => simp at hl
  | cons e tl =>
    cases tl with
    | nil =>
      simp only [List.map_cons, List.map_nil, List.cons.injEq, and_true] at hl
      simp [hl]
    | cons f tl2 => simp at hl

theorem start_core (s : DashState) (hinv : timerInv s) :
    (startLiveUpdates s).1 =
      { s with scheduled := [⟨s.nextId, s.updateInterval⟩],
               updateTimer := some s.nextId, nextId := s.nextId + 1 } ∧
    (startLiveUpdates s).2 = [Event.fetchTick] := by
  unfold startLiveUpdates setIntervalJS
  unfold timerInv at hinv
  cases hu : s.updateTimer with
  | none =>
    rw [hu] at hinv
    simp [hinv]
  | some h =>
    rw [hu] at hinv
    have hmap : List.map TimerEntry.id s.scheduled = [h] := hinv
    simp [clearIntervalJS]
    exact id_eq_of_map_id s.scheduled h hmap

theorem stop_core (s : DashState) (hinv : timerInv s) :
    stopLiveUpdates s = { s with scheduled := [], updateTimer := none } := by
  unfold stopLiveUpdates
  unfold timerInv at hinv
  cases hu : s.updateTimer with
  | none =>
    rw [hu] at hinv
    cases s
    simp_all
  | some h =>
    rw [hu] at hinv
    have hmap : List.map TimerEntry.id s.scheduled = [h] := hinv
    simp [clearIntervalJS]
    exact id_eq_of_map_id s.scheduled h hmap

theorem timerInv_of_fields (s : DashState) (h : Nat) (iv : Nat)
    (hs : s.scheduled = [⟨h, iv⟩]) (ht : s.updateTimer = some h) : timerInv s := by
  unfold timerInv
  rw [ht, hs]
  rfl

theorem timerInv_stopped (s : DashState) (hs : s.scheduled = [])
    (ht : s.updateTimer = none) : timerInv s := by
  unfold timerInv
  rw [ht, hs]

theorem timerInv_start (s : DashState) (hinv : timerInv s) :
    timerInv (startLiveUpdates s).1 := by
  have h := (start_core s hinv).1
  exact timerInv_of_fields _ s.nextId s.updateInterval (by rw [h]) (by rw [h])

theorem timerInv_stop (s : DashState) (hinv : timerInv s) :
    timerInv (stopLiveUpdates s) := by
  have h := stop_core s hinv
  exact timerInv_stopped _ (by rw [h]) (by rw [h])

theorem timerInv_restart (s : DashState) (hinv : timerInv s) :
    timerInv (restartLiveUpdates s).1 := by
  unfold restartLiveUpdates
  by_cases hl : (stopLiveUpdates s).isLiveMode
  · simp only [hl, if_true]
    exact timerInv_start _ (timerInv_stop s hinv)
  · simp only [hl, if_false]
    exact timerInv_stop s hinv

theorem timerInv_toggle (s : DashState) (b : Bool) (hinv : timerInv s) :
    timerInv (toggleLiveMode s b).1 := by
  unfold toggleLiveMode
  have hinv2 : timerInv { s with isLiveMode := b } := by
    unfold timerInv at hinv ⊢
    exact hinv
  cases b with
  | true => simpa using timerInv_start { s with isLiveMode := true } hinv2
  | false => simpa using timerInv_stop { s with isLiveMode := false } hinv2

theorem timerInv_constructed : timerInv constructedState := by
  unfold timerInv constructedState startLiveUpdates setIntervalJS
  rfl

theorem timerInv_reachable (s : DashState) (h : Reachable s) : timerInv s := by
  induction h with
  | construct => exact timerInv_constructed
  | toggle s b _ ih => exact timerInv_toggle s b ih
  | start s _ ih => exact timerInv_start s ih
  | stop s _ ih => exact timerInv_stop s ih
  | restart s _ ih => exact timerInv_restart s ih

theorem jsRound_mono {a b : ℚ} (h : a ≤ b) : jsRound a ≤ jsRound b := by
  unfold jsRound
  exact Int.floor_le_floor (by linarith)

theorem jsRound_nonneg {a : ℚ} (h : 0 ≤ a) : 0 ≤ jsRound a := by
  have h0 : jsRound 0 = 0 := by norm_num [jsRound]
  calc (0:ℤ) = jsRound 0 := h0.symm
    _ ≤ jsRound a := jsRound_mono h

theorem easeOutQuart_mono {p q : ℚ} (hpq : p ≤ q) (hq : q ≤ 1) :
    easeOutQuart p ≤ easeOutQuart q := by
  unfold easeOutQuart
  have h1 : (0:ℚ) ≤ 1 - q := by linarith
  have h2 : 1 - q ≤ 1 - p := by linarith
  have h3 := pow_le_pow_left₀ h1 h2 4
  linarith

theorem easeOutQuart_nonneg {p : ℚ} (h0 : 0 ≤ p) (h1 : p ≤ 1) :
    0 ≤ easeOutQuart p := by
  unfold easeOutQuart
  have ha : (0:ℚ) ≤ 1 - p := by linarith
  have hb : 1 - p ≤ 1 := by linarith
  have hc : (1 - p) ^ 4 ≤ 1 := pow_le_one₀ ha hb
  linarith

theorem easeOutQuart_one : easeOutQuart 1 = 1 := by norm_num [easeOutQuart]

theorem jsProgress_le_one (s d t : ℚ) : jsProgress s d t ≤ 1 :=
  min_le_right _ _

theorem jsProgress_mono (s : ℚ) {d : ℚ} (hd : 0 < d) {t u : ℚ} (h : t ≤ u) :
    jsProgress s d t ≤ jsProgress s d u := by
  unfold jsProgress
  exact min_le_min ((div_le_div_iff_of_pos_right hd).mpr (by linarith)) le_rfl

theorem jsProgress_nonneg (s : ℚ) {d : ℚ} (hd : 0 < d) {t : ℚ} (h : s ≤ t) :
    0 ≤ jsProgress s d t :=
  le_min (div_nonneg (by linarith) hd.le) zero_le_one

theorem jsProgress_eq_one (s : ℚ) {d : ℚ} (hd : 0 < d) {t : ℚ}
    (h : s + d ≤ t) : jsProgress s d t = 1 := by
  unfold jsProgress
  apply min_eq_right
  rw [le_div_iff₀ hd]
  linarith

theorem animateValue_mono (s : ℚ) {d : ℚ} (hd : 0 < d) {t u : ℚ} (h : t ≤ u) :
    animateValue 0 42 s d t ≤ animateValue 0 42 s d u := by
  unfold animateValue
  apply jsRound_mono
  have h1 := easeOutQuart_mono (jsProgress_mono s hd h) (jsProgress_le_one s d u)
  have h2 : (42:ℚ) * easeOutQuart (jsProgress s d t) ≤
      42 * easeOutQuart (jsProgress s d u) :=
    mul_le_mul_of_nonneg_left h1 (by norm_num)
  push_cast
  linarith

theorem animateValue_nonneg (s : ℚ) {d : ℚ} (hd : 0 < d) {t : ℚ} (h : s ≤ t) :
    0 ≤ animateValue 0 42 s d t := by
  unfold animateValue
  apply jsRound_nonneg
  have h0 := jsProgress_nonneg s hd h
  have h1 := jsProgress_le_one s d t
  have h2 := easeOutQuart_nonneg h0 h1
  have h3 : (0:ℚ) ≤ 42 * easeOutQuart (jsProgress s d t) :=
    mul_nonneg (by norm_num) h2
  push_cast
  linarith

theorem animateValue_done (s : ℚ) {d t : ℚ} (hp : jsProgress s d t = 1) :
    animateValue 0 42 s d t = 42 := by
  unfold animateValue
  rw [hp, easeOutQuart_one]
  norm_num [jsRound]

theorem animateRun_head (a b : ℤ) (s d t : ℚ) (ts : List ℚ) :
    (animateRun a b s d (t :: ts)).head? = some (animateValue a b s d t) := by
  simp only [animateRun]
  split <;> rfl

theorem promiseAll5_error (fv : Except String (List Vehicle))
    (fw : Except String Weather) (ft : Except String Traffic)
    (fm : Except String MaintenanceData) (ftr : Except String (List TrackRecord))
    (hfail : rejected fv = true ∨ rejected fw = true ∨ rejected ft = true ∨
      rejected fm = true ∨ rejected ftr = true) :
    ∃ e, promiseAll5 fv fw ft fm ftr = Except.error e := by
  rcases fv with e | v
  · exact ⟨e, rfl⟩
  rcases fw with e | w
  · exact ⟨e, rfl⟩
  rcases ft with e | t
  · exact ⟨e, rfl⟩
  rcases fm with e | m
  · exact ⟨e, rfl⟩
  rcases ftr with e | tr
  · exact ⟨e, rfl⟩
  simp [rejected] at hfail

/-! ## Claim theorems -/

/-- C1: when any of the five fetches rejects, the tick runs no render
step, emits exactly one "error"-severity notification, hides the loading
indicators, and leaves the controller state (in particular the scheduled
polling timer) untouched. -/
theorem c1_fetch_failure (s : DashState) (cm : Bool)
    (fv : Except String (List Vehicle)) (fw : Except String Weather)
    (ft : Except String Traffic) (fm : Except String MaintenanceData)
    (ftr : Except String (List TrackRecord))
    (hfail : rejected fv = true ∨ rejected fw = true ∨ rejected ft = true ∨
      rejected fm = true ∨ rejected ftr = true) :
    (fetchRealTimeData s cm fv fw ft fm ftr).1 = s ∧
    (∀ e ∈ (fetchRealTimeData s cm fv fw ft fm ftr).2, e.isRender = false) ∧
    (fetchRealTimeData s cm fv fw ft fm ftr).2.countP Event.isErrorNotify = 1 ∧
    Event.hideLoading ∈ (fetchRealTimeData s cm fv fw ft fm ftr).2 ∧
    (fetchRealTimeData s cm fv fw ft fm ftr).1.scheduled = s.scheduled ∧
    (fetchRealTimeData s cm fv fw ft fm ftr).1.updateTimer = s.updateTimer := by
  obtain ⟨e, he⟩ := promiseAll5_error fv fw ft fm ftr hfail
  unfold fetchRealTimeData
  rw [he]
  refine ⟨rfl, ?_, ?_, ?_, rfl, rfl⟩
  · intro ev hev
    simp only [List.mem_cons, List.not_mem_nil, or_false] at hev
    rcases hev with h | h | h <;> rw [h] <;> rfl
  · simp [List.countP_cons, Event.isErrorNotify]
  · simp

/-- Witness for C1 with a rejected vehicle fetch. -/
theorem c1_fetch_failure_witness :
    (fetchRealTimeData ⟨true, 5000, some 0, [⟨0, 5000⟩], 1⟩ true
        (Except.error "network") (Except.ok ⟨"Clear", 20, 50, 10⟩)
        (Except.ok ⟨"Low", 5, 0⟩) (Except.ok ⟨some []⟩) (Except.ok [])).1 =
      ⟨true, 5000, some 0, [⟨0, 5000⟩], 1⟩ ∧
    (∀ e ∈ (fetchRealTimeData ⟨true, 5000, some 0, [⟨0, 5000⟩], 1⟩ true
        (Except.error "network") (Except.ok ⟨"Clear", 20, 50, 10⟩)
        (Except.ok ⟨"Low", 5, 0⟩) (Except.ok ⟨some []⟩) (Except.ok [])).2,
      e.isRender = false) ∧
    (fetchRealTimeData ⟨true, 5000, some 0, [⟨0, 5000⟩], 1⟩ true
        (Except.error "network") (Except.ok ⟨"Clear", 20, 50, 10⟩)
        (Except.ok ⟨"Low", 5, 0⟩) (Except.ok ⟨some []⟩)
        (Except.ok [])).2.countP Event.isErrorNotify = 1 ∧
    Event.hideLoading ∈ (fetchRealTimeData ⟨true, 5000, some 0, [⟨0, 5000⟩], 1⟩ true
        (Except.error "network") (Except.ok ⟨"Clear", 20, 50, 10⟩)
        (Except.ok ⟨"Low", 5, 0⟩) (Except.ok ⟨some []⟩) (Except.ok [])).2 ∧
    (fetchRealTimeData ⟨true, 5000, some 0, [⟨0, 5000⟩], 1⟩ true
        (Except.error "network") (Except.ok ⟨"Clear", 20, 50, 10⟩)
        (Except.ok ⟨"Low", 5, 0⟩) (Except.ok ⟨some []⟩)
        (Except.ok [])).1.scheduled = [⟨0, 5000⟩] ∧
    (fetchRealTimeData ⟨true, 5000, some 0, [⟨0, 5000⟩], 1⟩ true
        (Except.error "network") (Except.ok ⟨"Clear", 20, 50, 10⟩)
        (Except.ok ⟨"Low", 5, 0⟩) (Except.ok ⟨some []⟩)
        (Except.ok [])).1.updateTimer = some 0 :=
  c1_fetch_failure ⟨true, 5000, some 0, [⟨0, 5000⟩], 1⟩ true
    (Except.error "network") (Except.ok ⟨"Clear", 20, 50, 10⟩)
    (Except.ok ⟨"Low", 5, 0⟩) (Except.ok ⟨some []⟩) (Except.ok [])
    (Or.inl rfl)

/-- C2 counterexample: the state right after construction is reachable,
has live mode off, and yet the timer handle is set and a repeating timer
is scheduled (init calls startLiveUpdates unconditionally), refuting
"the live-mode flag being false implies no timer is running". -/
theorem c2_cex_constructed_timer_running :
    Reachable constructedState ∧ constructedState.isLiveMode = false ∧
    constructedState.updateTimer ≠ none ∧ constructedState.scheduled ≠ [] := by
  refine ⟨Reachable.construct, rfl, ?_, ?_⟩
  · simp [constructedState, startLiveUpdates, setIntervalJS]
  · simp [constructedState, startLiveUpdates, setIntervalJS]

/-- C2 (amended): in every reachable state the timer handle is non-null
iff a repeating timer is currently scheduled; live mode being off only
guarantees that a timer fire performs no fetch, not that no timer is
running. -/
theorem c2_reachable_timer_handle_iff (s : DashState) (h : Reachable s) :
    (s.updateTimer ≠ none ↔ s.scheduled ≠ []) ∧
    (s.isLiveMode = false → onTimerFire s = []) := by
  have hinv := timerInv_reachable s h
  unfold timerInv at hinv
  constructor
  · cases hu : s.updateTimer with
    | none =>
      rw [hu] at hinv
      simp [hinv]
    | some hd =>
      rw [hu] at hinv
      have hmap : List.map TimerEntry.id s.scheduled = [hd] := hinv
      constructor
      · intro _ hnil
        rw [hnil] at hmap
        simp at hmap
      · intro _
        simp
  · intro hl
    simp [onTimerFire, hl]

/-- Witness for the amended C2 at the constructed state. -/
theorem c2_reachable_timer_handle_iff_witness :
    (constructedState.updateTimer ≠ none ↔ constructedState.scheduled ≠ []) ∧
    (constructedState.isLiveMode = false → onTimerFire constructedState = []) :=
  c2_reachable_timer_handle_iff constructedState Reachable.construct

/-- C3: for every interval greater than zero and every prior timer state
satisfying the timer invariant, startLiveUpdates leaves exactly the one
freshly scheduled repeating timer (any pre-existing timer is cleared) and
performs exactly one immediate out-of-band fetch. -/
theorem c3_start_one_timer_one_tick (s : DashState)
    (hpos : 0 < s.updateInterval) (hinv : timerInv s) :
    (startLiveUpdates s).1.scheduled = [⟨s.nextId, s.updateInterval⟩] ∧
    (startLiveUpdates s).1.updateTimer = some s.nextId ∧
    (startLiveUpdates s).2 = [Event.fetchTick] := by
  obtain ⟨h1, h2⟩ := start_core s hinv
  rw [h1, h2]
  exact ⟨rfl, rfl, rfl⟩

/-- Witness for C3 on a stopped controller with a 5000 ms interval. -/
theorem c3_start_one_timer_one_tick_witness :
    (startLiveUpdates ⟨false, 5000, none, [], 0⟩).1.scheduled = [⟨0, 5000⟩] ∧
    (startLiveUpdates ⟨false, 5000, none, [], 0⟩).1.updateTimer = some 0 ∧
    (startLiveUpdates ⟨false, 5000, none, [], 0⟩).2 = [Event.fetchTick] :=
  c3_start_one_timer_one_tick ⟨false, 5000, none, [], 0⟩ (by decide) (by rfl)

/-- C4: stopLiveUpdates is idempotent: stopping twice equals stopping
once, and afterwards the handle is null and no timer is scheduled. -/
theorem c4_stop_idempotent (s : DashState) (hinv : timerInv s) :
    stopLiveUpdates (stopLiveUpdates s) = stopLiveUpdates s ∧
    (stopLiveUpdates s).updateTimer = none ∧
    (stopLiveUpdates s).scheduled = [] := by
  have h := stop_core s hinv
  refine ⟨?_, by rw [h], by rw [h]⟩
  rw [h]
  rfl

/-- Witness for C4 on a running controller. -/
theorem c4_stop_idempotent_witness :
    stopLiveUpdates (stopLiveUpdates ⟨true, 5000, some 3, [⟨3, 5000⟩], 4⟩) =
      stopLiveUpdates ⟨true, 5000, some 3, [⟨3, 5000⟩], 4⟩ ∧
    (stopLiveUpdates ⟨true, 5000, some 3, [⟨3, 5000⟩], 4⟩).updateTimer = none ∧
    (stopLiveUpdates ⟨true, 5000, some 3, [⟨3, 5000⟩], 4⟩).scheduled = [] :=
  c4_stop_idempotent ⟨true, 5000, some 3, [⟨3, 5000⟩], 4⟩ (by rfl)

/-- C5: one updateCarbonTrendChart call keeps the trend series at no more
than 10 points, and appending to a full series of 10 evicts exactly the
oldest point of both the label and the value series (FIFO). -/
theorem c5_trend_capacity (c : TrendChartData) (lbl : String) (v : ℚ)
    (heq : c.data.length = c.labels.length) (hle : c.labels.length ≤ 10) :
    ((updateCarbonTrendChart c lbl v).labels.length ≤ 10 ∧
     (updateCarbonTrendChart c lbl v).data.length ≤ 10) ∧
    (c.labels.length = 10 →
      (updateCarbonTrendChart c lbl v).labels = c.labels.tail ++ [lbl] ∧
      (updateCarbonTrendChart c lbl v).data = c.data.tail ++ [v]) := by
  unfold updateCarbonTrendChart
  by_cases hlen : (c.labels ++ [lbl]).length > 10
  · simp only [hlen, if_true]
    refine ⟨⟨?_, ?_⟩, ?_⟩
    · simp at hlen ⊢
      omega
    · simp at hlen ⊢
      omega
    · intro h10
      have hd1 : 1 ≤ c.labels.length := by omega
      have hd2 : 1 ≤ c.data.length := by omega
      constructor
      · rw [List.drop_append_of_le_length hd1, List.drop_one]
      · rw [List.drop_append_of_le_length hd2, List.drop_one]
  · simp only [hlen, if_false]
    simp only [List.length_append, List.length_cons, List.length_nil,
      Nat.not_lt] at hlen
    refine ⟨⟨?_, ?_⟩, ?_⟩
    · simp
      omega
    · simp
      omega
    · intro h10
      exfalso
      omega

/-- Witness for C5 on a full 10-point series. -/
theorem c5_trend_capacity_witness :
    (((updateCarbonTrendChart ⟨["a", "b", "c", "d", "e", "f", "g", "h", "i", "j"],
        [1, 2, 3, 4, 5, 6, 7, 8, 9, 10]⟩ "k" 11).labels.length ≤ 10 ∧
      (updateCarbonTrendChart ⟨["a", "b", "c", "d", "e", "f", "g", "h", "i", "j"],
        [1, 2, 3, 4, 5, 6, 7, 8, 9, 10]⟩ "k" 11).data.length ≤ 10) ∧
     (["a", "b", "c", "d", "e", "f", "g", "h", "i", "j"].length = 10 →
       (updateCarbonTrendChart ⟨["a", "b", "c", "d", "e", "f", "g", "h", "i", "j"],
         [1, 2, 3, 4, 5, 6, 7, 8, 9, 10]⟩ "k" 11).labels =
           ["a", "b", "c", "d", "e", "f", "g", "h", "i", "j"].tail ++ ["k"] ∧
       (updateCarbonTrendChart ⟨["a", "b", "c", "d", "e", "f", "g", "h", "i", "j"],
         [1, 2, 3, 4, 5, 6, 7, 8, 9, 10]⟩ "k" 11).data =
           ([1, 2, 3, 4, 5, 6, 7, 8, 9, 10] : List ℚ).tail ++ [11])) :=
  c5_trend_capacity ⟨["a", "b", "c", "d", "e", "f", "g", "h", "i", "j"],
    [1, 2, 3, 4, 5, 6, 7, 8, 9, 10]⟩ "k" 11 (by rfl) (by decide)

/-- C6: on the scenario vehicle list the rendered stats are total 3,
active 2, idle 1 and efficiency round(2/3*100) = 67. -/
theorem c6_vehicle_stats_scenario :
    updateVehicleStats [⟨"In Transit"⟩, ⟨"Available"⟩, ⟨"In Transit"⟩] =
      ⟨3, 2, 1, 67⟩ := by
  unfold updateVehicleStats
  simp [List.filter_cons]
  norm_num [jsRound]

/-- C7: when the maintenance alerts container exists and the payload has
exactly two alerts of urgency "Critical", exactly two "error"-severity
notifications are emitted and the rendered critical count is 2. -/
theorem c7_two_critical_alerts (d : MaintenanceData) (l : List MAlert)
    (halerts : d.alerts = some l)
    (hcrit : (l.filter (fun a => a.urgency = "Critical")).length = 2) :
    (updateMaintenanceAlerts true d).countP Event.isErrorNotify = 2 ∧
    Event.renderMaintenance 2 ((l.filter (fun a => a.urgency = "Warning")).length) ∈
      updateMaintenanceAlerts true d := by
  unfold updateMaintenanceAlerts
  rw [halerts]
  constructor
  · simp only [List.countP_cons, List.countP_map]
    have h1 : (Event.isErrorNotify ∘
        fun a : MAlert => Event.notifyEvt ("Critical: " ++ a.message) "error" 10000) =
        fun _ => true := by
      funext a
      simp [Function.comp, Event.isErrorNotify]
    rw [h1]
    simp [hcrit, Event.isErrorNotify]
  · rw [← hcrit]
    exact List.mem_cons_self _ _

/-- Witness for C7 on a payload with two critical alerts. -/
theorem c7_two_critical_alerts_witness :
    (updateMaintenanceAlerts true ⟨some [⟨"Critical", "brakes"⟩, ⟨"Critical", "engine"⟩]⟩).countP
        Event.isErrorNotify = 2 ∧
    Event.renderMaintenance 2
        (([⟨"Critical", "brakes"⟩, ⟨"Critical", "engine"⟩] : List MAlert).filter
          (fun a => a.urgency = "Warning")).length ∈
      updateMaintenanceAlerts true ⟨some [⟨"Critical", "brakes"⟩, ⟨"Critical", "engine"⟩]⟩ :=
  c7_two_critical_alerts ⟨some [⟨"Critical", "brakes"⟩, ⟨"Critical", "engine"⟩]⟩
    [⟨"Critical", "brakes"⟩, ⟨"Critical", "engine"⟩] rfl (by decide)

/-- C8: changing the interval stores the new value; when live the timer is
restarted (stop then start) so the single scheduled timer carries the new
period; when not live no timer is started and no tick is emitted. -/
theorem c8_interval_change (s : DashState) (v : Nat) (hinv : timerInv s) :
    (onIntervalChange s v).1.updateInterval = v * 1000 ∧
    (s.isLiveMode = true →
      (onIntervalChange s v).1.scheduled = [⟨s.nextId, v * 1000⟩] ∧
      (onIntervalChange s v).1.updateTimer = some s.nextId ∧
      (onIntervalChange s v).2 = [Event.fetchTick]) ∧
    (s.isLiveMode = false →
      (onIntervalChange s v).1 = { s with updateInterval := v * 1000 } ∧
      (onIntervalChange s v).2 = []) := by
  obtain ⟨lm, iv, ut, sch, ni⟩ := s
  cases lm with
  | false =>
    simp [onIntervalChange]
  | true =>
    have hinv1 : timerInv ⟨true, v * 1000, ut, sch, ni⟩ := hinv
    simp only [onIntervalChange, restartLiveUpdates]
    rw [stop_core ⟨true, v * 1000, ut, sch, ni⟩ hinv1]
    have hstart := start_core ⟨true, v * 1000, none, [], ni⟩
      (timerInv_stopped _ rfl rfl)
    simp only [if_true]
    rw [hstart.1, hstart.2]
    simp

/-- Witness for C8 on a live controller switching to 10 seconds. -/
theorem c8_interval_change_witness :
    (onIntervalChange ⟨true, 5000, some 3, [⟨3, 5000⟩], 4⟩ 10).1.updateInterval = 10 * 1000 ∧
    ((⟨true, 5000, some 3, [⟨3, 5000⟩], 4⟩ : DashState).isLiveMode = true →
      (onIntervalChange ⟨true, 5000, some 3, [⟨3, 5000⟩], 4⟩ 10).1.scheduled = [⟨4, 10 * 1000⟩] ∧
      (onIntervalChange ⟨true, 5000, some 3, [⟨3, 5000⟩], 4⟩ 10).1.updateTimer = some 4 ∧
      (onIntervalChange ⟨true, 5000, some 3, [⟨3, 5000⟩], 4⟩ 10).2 = [Event.fetchTick]) ∧
    ((⟨true, 5000, some 3, [⟨3, 5000⟩], 4⟩ : DashState).isLiveMode = false →
      (onIntervalChange ⟨true, 5000, some 3, [⟨3, 5000⟩], 4⟩ 10).1 =
        { (⟨true, 5000, some 3, [⟨3, 5000⟩], 4⟩ : DashState) with updateInterval := 10 * 1000 } ∧
      (onIntervalChange ⟨true, 5000, some 3, [⟨3, 5000⟩], 4⟩ 10).2 = []) :=
  c8_interval_change ⟨true, 5000, some 3, [⟨3, 5000⟩], 4⟩ 10 (by rfl)

/-- C9: animateCounter from text "0" to target 42 over any nondecreasing
sequence of frame times, all at or after the start and eventually passing
the 1000 ms duration, writes a finite monotone nondecreasing sequence of
values starting from 0 whose final frame writes exactly 42. -/
theorem c9_animate_counter_42 (startTime : ℚ) (ts : List ℚ)
    (hsort : List.Chain' (· ≤ ·) ts)
    (hge : ∀ t ∈ ts, startTime ≤ t)
    (hdone : ∃ t ∈ ts, startTime + 1000 ≤ t) :
    animateRun 0 42 startTime 1000 ts ≠ [] ∧
    List.Chain' (· ≤ ·) ((0 : ℤ) :: animateRun 0 42 startTime 1000 ts) ∧
    (animateRun 0 42 startTime 1000 ts).getLast? = some 42 := by
  have hd : (0:ℚ) < 1000 := by norm_num
  induction ts with
  | nil => simp at hdone
  | cons t ts ih =>
    by_cases hp : jsProgress startTime 1000 t < 1
    · have hrun : animateRun 0 42 startTime 1000 (t :: ts) =
          animateValue 0 42 startTime 1000 t :: animateRun 0 42 startTime 1000 ts := by
        simp only [animateRun]
        rw [if_pos hp]
      obtain ⟨tw, htw, hw⟩ := hdone
      have htw2 : tw ∈ ts := by
        rcases List.mem_cons.mp htw with h1 | h1
        · exfalso
          have hone := jsProgress_eq_one startTime hd (h1 ▸ hw)
          rw [hone] at hp
          exact lt_irrefl 1 hp
        · exact h1
      have hts : ts ≠ [] := List.ne_nil_of_mem htw2
      obtain ⟨t2, ts2, rfl⟩ := List.exists_cons_of_ne_nil hts
      obtain ⟨ihne, ihchain, ihlast⟩ :=
        ih hsort.tail (fun x hx => hge x (List.mem_cons_of_mem _ hx)) ⟨tw, htw2, hw⟩
      have hvnn : (0:ℤ) ≤ animateValue 0 42 startTime 1000 t :=
        animateValue_nonneg startTime hd (hge t (List.mem_cons_self _ _))
      have ht12 : t ≤ t2 := (List.chain'_cons.mp hsort).1
      have hv12 := animateValue_mono startTime hd ht12
      cases hrest : animateRun 0 42 startTime 1000 (t2 :: ts2) with
      | nil => exact absurd hrest ihne
      | cons v2 rest2 =>
        have hv2 : v2 = animateValue 0 42 startTime 1000 t2 := by
          have hh := animateRun_head 0 42 startTime 1000 t2 ts2
          rw [hrest] at hh
          simpa using hh
        refine ⟨?_, ?_, ?_⟩
        · rw [hrun]
          exact List.cons_ne_nil _ _
        · rw [hrun, hrest]
          rw [List.chain'_cons]
          refine ⟨hvnn, ?_⟩
          rw [List.chain'_cons]
          refine ⟨hv2 ▸ hv12, ?_⟩
          rw [hrest] at ihchain
          exact (List.chain'_cons.mp ihchain).2
        · rw [hrun, hrest, List.getLast?_cons_cons]
          rw [hrest] at ihlast
          exact ihlast
    · push_neg at hp
      have hp1 : jsProgress startTime 1000 t = 1 :=
        le_antisymm (jsProgress_le_one _ _ _) hp
      have hrun : animateRun 0 42 startTime 1000 (t :: ts) =
          [animateValue 0 42 startTime 1000 t] := by
        simp only [animateRun]
        rw [if_neg (by rw [hp1]; exact lt_irrefl 1)]
      rw [hrun, animateValue_done startTime hp1]
      refine ⟨by simp, ?_, rfl⟩
      exact List.chain'_cons.mpr ⟨by norm_num, List.chain'_singleton _⟩

/-- Witness for C9 with frames at 500 ms and 1000 ms. -/
theorem c9_animate_counter_42_witness :
    animateRun 0 42 0 1000 [500, 1000] ≠ [] ∧
    List.Chain' (· ≤ ·) ((0 : ℤ) :: animateRun 0 42 0 1000 [500, 1000]) ∧
    (animateRun 0 42 0 1000 [500, 1000]).getLast? = some 42 :=
  c9_animate_counter_42 0 [500, 1000] (by norm_num [List.chain'_cons])
    (by norm_num) (by norm_num)

/-- C10: on the empty vehicle list the guarded efficiency computation
yields 0 and all counters are 0; no division by zero occurs. -/
theorem c10_vehicle_stats_empty :
    updateVehicleStats [] = ⟨0, 0, 0, 0⟩ := by
  rfl

end RealTimeDashboard
